import Mathlib

/-
Verification of the cache-population and slug/episode-resolution engine of
the DayyAnime server (app.py), as a shallow embedding in Lean 4.

Upstream HTTP traffic is modelled by oracles: a function from the retry
counter (or from a candidate index) to the upstream response.  Sleeps are
recorded as the list of multipliers k such that the code slept
RETRY_DELAY * k; the process-wide counters total_api_calls and
failed_api_calls are recorded as the requests and failedCalls fields of the
request outcome.
-/

/-- JSON values as parsed by response.json(); truthiness follows Python. -/
inductive Json where
  | obj : List (String × Json) → Json
  | arr : List Json → Json
  | str : String → Json
  | num : Int → Json
  | boolean : Bool → Json
  | null : Json

/-- Python truthiness of a JSON value. -/
def Json.truthy : Json → Bool
  | .obj fields => !fields.isEmpty
  | .arr elems => !elems.isEmpty
  | .str s => !s.toList.isEmpty
  | .num n => decide (n ≠ 0)
  | .boolean b => b
  | .null => false

/-- Dictionary lookup; none on non-objects. -/
def Json.lookup : Json → String → Option Json
  | .obj fields, k => (fields.find? (fun p => p.fst == k)).map (fun p => p.snd)
  | _, _ => none

/-- Python membership test k in data for an object (false on non-objects). -/
def Json.hasKey (j : Json) (k : String) : Bool := (j.lookup k).isSome

/-- One upstream HTTP response, as classified by safe_api_request:
HTTP 429, HTTP 404, HTTP 200 (whose body is some parsed JSON, or none when
response.json() raises), any other status code, a requests timeout, or any
other transport-level exception. -/
inductive UpResp where
  | rateLimited
  | notFound
  | ok (body : Option Json)
  | badStatus (code : Nat)
  | timeout
  | transport

/-- The value safe_api_request hands back to its caller: the 200 response
object, the 404 marker dict with status empty and empty data, or None. -/
inductive ClientResult where
  | ok (body : Option Json)
  | emptyMarker
  | failed

/-- Observable outcome of one top-level safe_api_request call: its return
value, how many HTTP requests were issued (total_api_calls increments),
the sleep multipliers in order (each entry k stands for a sleep of
RETRY_DELAY * k), and how often failed_api_calls was incremented. -/
structure ReqOutcome where
  result : ClientResult
  requests : Nat
  sleeps : List Nat
  failedCalls : Nat

/-- Recursion core of safe_api_request.  The source recurses with
retry_count + 1 exactly when retry_count < MAX_RETRIES; the first argument
b is the remaining retry budget MAX_RETRIES - retry_count, so b = 0 holds
exactly when the guard retry_count < MAX_RETRIES is false (for every
retry_count, since Nat subtraction truncates), and the budget of the
recursive call is b - 1 = MAX_RETRIES - (retry_count + 1).  On 429 and on
timeout the sleep is RETRY_DELAY * (retry_count + 1); on other bad statuses
and on transport errors it is a flat RETRY_DELAY (multiplier 1). -/
def safeApiRequestGo (respond : Nat → UpResp) : Nat → Nat → ReqOutcome
  | 0, rc =>
    match respond rc with
    | .rateLimited => ⟨.failed, 1, [], 1⟩
    | .notFound => ⟨.emptyMarker, 1, [], 0⟩
    | .ok body => ⟨.ok body, 1, [], 0⟩
    | .badStatus _ => ⟨.failed, 1, [], 1⟩
    | .timeout => ⟨.failed, 1, [], 1⟩
    | .transport => ⟨.failed, 1, [], 1⟩
  | b + 1, rc =>
    match respond rc with
    | .rateLimited =>
      let r := safeApiRequestGo respond b (rc + 1)
      ⟨r.result, r.requests + 1, (rc + 1) :: r.sleeps, r.failedCalls⟩
    | .notFound => ⟨.emptyMarker, 1, [], 0⟩
    | .ok body => ⟨.ok body, 1, [], 0⟩
    | .badStatus _ =>
      let r := safeApiRequestGo respond b (rc + 1)
      ⟨r.result, r.requests + 1, 1 :: r.sleeps, r.failedCalls⟩
    | .timeout =>
      let r := safeApiRequestGo respond b (rc + 1)
      ⟨r.result, r.requests + 1, (rc + 1) :: r.sleeps, r.failedCalls⟩
    | .transport =>
      let r := safeApiRequestGo respond b (rc + 1)
      ⟨r.result, r.requests + 1, 1 :: r.sleeps, r.failedCalls⟩

/-- safe_api_request(url, retry_count): the oracle respond gives the
upstream response seen by the request issued at each retry_count value. -/
def safe_api_request (respond : Nat → UpResp) (maxRetries retryCount : Nat) : ReqOutcome :=
  safeApiRequestGo respond (maxRetries - retryCount) retryCount

/-- Status strings returned by load_single_page. -/
inductive PageStatus where
  | success
  | empty
  | invalidFormat
  | failed
deriving DecidableEq

/-- Return dict of load_single_page. -/
structure PageResult where
  page : Nat
  data : List Json
  status : PageStatus

/-- Attempt loop of load_single_page (max_attempts = 3).  The oracle gives,
for each attempt, the per-retry-count upstream responses consumed by the
inner safe_api_request call (always started at retry_count = 0).  A falsy
return (None) retries the attempt; the 404 marker dict is detected and
returned as an empty page; on a 200 response, a JSON array is a success, a
non-array body is invalid_format, and a body on which response.json()
raises is caught and the attempt retried. -/
def loadSinglePageGo (pageNum : Nat) (respond : Nat → Nat → UpResp) (maxRetries : Nat) :
    Nat → Nat → PageResult
  | 0, _ => ⟨pageNum, [], .failed⟩
  | fuel + 1, attempt =>
    match (safe_api_request (respond attempt) maxRetries 0).result with
    | .emptyMarker => ⟨pageNum, [], .empty⟩
    | .ok (some (Json.arr l)) => ⟨pageNum, l, .success⟩
    | .ok (some _) => ⟨pageNum, [], .invalidFormat⟩
    | .ok none => loadSinglePageGo pageNum respond maxRetries fuel (attempt + 1)
    | .failed => loadSinglePageGo pageNum respond maxRetries fuel (attempt + 1)

/-- load_single_page(page_num) with its three attempts. -/
def load_single_page (pageNum : Nat) (respond : Nat → Nat → UpResp) (maxRetries : Nat) :
    PageResult :=
  loadSinglePageGo pageNum respond maxRetries 3 0

/-- One catalog entry as consumed by the deduplication and matching code:
the url, judul (title) and the string form of the id field (the code always
uses str(anime.get(..., ...)) or f-string interpolation), plus the page
metadata attached by the sequential loader and the placeholder flag. -/
structure Entry where
  url : String
  judul : String
  id : String
  page : Option Nat
  emptyFlag : Bool
deriving DecidableEq, Repr

/-- Python str.lower(), character by character (ASCII letters, which is
what Char.toLower lowers, cover all inputs of interest). -/
def lowerStr (s : String) : String := String.mk (s.toList.map Char.toLower)

/-- Python str.strip(): drop whitespace from both ends. -/
def stripWs (s : String) : String :=
  String.mk (((s.toList.dropWhile Char.isWhitespace).reverse.dropWhile Char.isWhitespace).reverse)

/-- Python str.replace(old, new) for a single-character pattern, which is
the only shape the source uses; character by character. -/
def replaceChar (old : Char) (new : List Char) : List Char → List Char
  | [] => []
  | c :: rest =>
    if c == old then new ++ replaceChar old new rest else c :: replaceChar old new rest

/-- Python str.replace on strings for a single-character pattern. -/
def replaceStr (s : String) (old : Char) (new : List Char) : String :=
  String.mk (replaceChar old new s.toList)

/-- Python str.split(sep) for a single-character separator: the empty
string splits to one empty field, and adjacent separators give empty
fields, as in Python. -/
def splitOnChar (sep : Char) : List Char → List (List Char)
  | [] => [[]]
  | c :: rest =>
    let r := splitOnChar sep rest
    if c == sep then [] :: r
    else
      match r with
      | [] => [[c]]
      | h :: t => (c :: h) :: t

/-- Python str.split(sep) on strings. -/
def splitStr (s : String) (sep : Char) : List String :=
  (splitOnChar sep s.toList).map String.mk

/-- anime.get(url, empty-string).strip().lower() -/
def normUrl (e : Entry) : String := lowerStr (stripWs e.url)

/-- anime.get(judul, empty-string).strip().lower() -/
def normTitle (e : Entry) : String := lowerStr (stripWs e.judul)

/-- The five deduplication identifier strings built by load_all_anime. -/
def identifiers (e : Entry) : List String :=
  ["url:" ++ normUrl e,
   "title:" ++ normTitle e,
   "id:" ++ e.id,
   "url_id:" ++ normUrl e ++ "|" ++ e.id,
   "title_id:" ++ normTitle e ++ "|" ++ e.id]

/-- The deduplication loop of load_all_anime: seen is the seen_urls set
(the seen_titles set is written but never read, so it is omitted);
placeholder entries carrying the empty flag are skipped; an entry is kept
exactly when none of its five identifiers has been seen, and then all five
are added. -/
def removeDuplicatesGo : List Entry → List String → List Entry
  | [], _ => []
  | e :: rest, seen =>
    if e.emptyFlag then removeDuplicatesGo rest seen
    else if (identifiers e).any (fun i => seen.contains i) then removeDuplicatesGo rest seen
    else e :: removeDuplicatesGo rest (seen ++ identifiers e)

/-- Smart deduplication of load_all_anime over the accumulated entries. -/
def removeDuplicates (l : List Entry) : List Entry := removeDuplicatesGo l []

/-- x.get(page-metadata, 999), the sort key of the final sort. -/
def pageKey (e : Entry) : Nat := e.page.getD 999

/-- Stable insertion used to model the stable sort list.sort(key=...). -/
def insertByPage (e : Entry) : List Entry → List Entry
  | [] => [e]
  | x :: xs => if pageKey x < pageKey e then x :: insertByPage e xs else e :: x :: xs

/-- unique_anime.sort(key=lambda x: x.get(page-metadata, 999)): Python sort
is stable, and a stable sort is extensionally unique, so stable insertion
sort is a faithful model. -/
def sortByPage : List Entry → List Entry
  | [] => []
  | e :: rest => insertByPage e (sortByPage rest)

/-- The whole dedup-then-sort pipeline committed to the cache. -/
def dedupCatalog (l : List Entry) : List Entry := sortByPage (removeDuplicates l)

/-- Module-level cache state read and written by load_all_anime. -/
structure CacheState where
  animeCache : List Entry
  cacheLoaded : Bool
  cacheLoading : Bool

/-- Return value of load_100_pages_parallel / load_100_pages_sequential:
accumulated entries and the successful page count (load_duration is
irrelevant to the claims and omitted). -/
structure LoadOutcome where
  allAnime : List Entry
  successfulPages : Nat

/-- load_all_anime as a state transformer.  The two loaders are oracles;
none models the call raising an exception.  The source wraps only the
parallel attempt in try/except: an exception from the parallel loader, or
a parallel result below 80 pages, falls back to the sequential loader, and
an exception from the sequential loader propagates (there is no finally),
which is modelled by returning none together with the state at that point,
in which cache_loading is still True. -/
def load_all_anime (parallelLoad sequentialLoad : Option LoadOutcome) (st : CacheState) :
    Option (List Entry) × CacheState :=
  if st.cacheLoading then (some st.animeCache, st)
  else if st.cacheLoaded && decide (0 < st.animeCache.length) then (some st.animeCache, st)
  else
    let st1 : CacheState := { st with cacheLoading := true }
    let attempt : Option LoadOutcome :=
      match parallelLoad with
      | some r => if r.successfulPages < 80 then sequentialLoad else some r
      | none => sequentialLoad
    match attempt with
    | none => (none, st1)
    | some r =>
      let uniq := dedupCatalog r.allAnime
      (some uniq, { animeCache := uniq, cacheLoaded := true, cacheLoading := false })

/-- Python str.strip(slash): drop the slash character from both ends. -/
def pyStrip (s : String) : String :=
  String.mk (((s.toList.dropWhile fun c => c == '/').reverse.dropWhile fun c => c == '/').reverse)

/-- Python str.rstrip(slash): drop the slash character from the right end. -/
def pyRstrip (s : String) : String :=
  String.mk ((s.toList.reverse.dropWhile fun c => c == '/').reverse)

/-- Core of the Python substring test: needle occurs in hay. -/
def pyInAux (needle : List Char) : List Char → Bool
  | [] => needle.isEmpty
  | c :: rest => needle.isPrefixOf (c :: rest) || pyInAux needle rest

/-- Python: needle in hay, for strings. -/
def pyIn (needle hay : String) : Bool := pyInAux needle.toList hay.toList

/-- Normalized entry url: anime.get(url, empty-string).strip(slash).lower() -/
def slugUrl (e : Entry) : String := lowerStr (pyStrip e.url)

/-- Strategy 1: exact URL match. -/
def strat1 (slugN : String) (e : Entry) : Bool := slugUrl e == slugN

/-- Strategy 2: URL contains slug. -/
def strat2 (slugN : String) (e : Entry) : Bool := pyIn slugN (slugUrl e)

/-- Strategy 3: slug contains URL. -/
def strat3 (slugN : String) (e : Entry) : Bool := pyIn (slugUrl e) slugN

/-- Strategy 4: title match (title lower-cased, spaces to dashes, colons
removed, then slug containment). -/
def strat4 (slugN : String) (e : Entry) : Bool :=
  pyIn slugN (replaceStr (replaceStr (lowerStr e.judul) ' ' ['-']) ':' [])

/-- Strategy 5: some dash-token of the slug of length above 2 occurs in the
lower-cased title. -/
def strat5 (slugN : String) (e : Entry) : Bool :=
  (splitStr slugN '-').any
    (fun part => decide (2 < part.toList.length) && pyIn part (lowerStr e.judul))

/-- Strategy 6: string form of the id equals the normalized slug. -/
def strat6 (slugN : String) (e : Entry) : Bool := e.id == slugN

/-- Strategy 7: some dash-token of the slug of length above 3 occurs in the
lower-cased url (not slash-stripped here, as in the source). -/
def strat7 (slugN : String) (e : Entry) : Bool :=
  (splitStr slugN '-').any
    (fun part => decide (3 < part.toList.length) && pyIn part (lowerStr e.url))

/-- The fixed strategy cascade of find_anime_by_slug, in source order. -/
def matching_strategies (slugN : String) : List (Entry → Bool) :=
  [strat1 slugN, strat2 slugN, strat3 slugN, strat4 slugN,
   strat5 slugN, strat6 slugN, strat7 slugN]

/-- The double loop of find_anime_by_slug: each strategy is run over the
whole cache before the next strategy is tried; the first hit is returned. -/
def findByStrategies (allAnime : List Entry) : List (Entry → Bool) → Option Entry
  | [] => none
  | s :: rest =>
    match allAnime.find? s with
    | some a => some a
    | none => findByStrategies allAnime rest

/-- find_anime_by_slug(slug) over the catalog produced by load_all_anime.
The source contains no fallback to the upstream search endpoint: after the
strategy cascade it returns None. -/
def find_anime_by_slug (allAnime : List Entry) (slug : String) : Option Entry :=
  findByStrategies allAnime (matching_strategies (lowerStr (pyStrip slug)))

/-- Whether some strategy of the cascade matches some cached entry. -/
def anyStrategyMatches (allAnime : List Entry) (slugN : String) : Bool :=
  (matching_strategies slugN).any (fun s => allAnime.any s)

/-- Python str.zfill: left-pad with zeros to the given width, keeping a
leading sign in front of the padding. -/
def padZeros (l : List Char) (n : Nat) : List Char :=
  List.replicate (n - l.length) '0' ++ l

/-- Python str.zfill. -/
def zfill (s : String) (width : Nat) : String :=
  match s.toList with
  | '+' :: rest => String.mk ('+' :: padZeros rest (width - 1))
  | '-' :: rest => String.mk ('-' :: padZeros rest (width - 1))
  | l => String.mk (padZeros l width)

/-- The nine candidate chapterUrlId formats of get_episode_video, in
generated order. -/
def possibleChapterIds (a : Entry) (episodeNum : String) : List String :=
  let animeId := a.id
  let animeUrl := pyRstrip a.url
  let animeSlug := if pyIn "/" animeUrl then (splitStr animeUrl '/').getLastD "" else animeUrl
  ["al-" ++ animeId ++ "-" ++ episodeNum,
   "al-" ++ animeId ++ "-" ++ zfill episodeNum 2,
   "al-" ++ animeId ++ "-" ++ zfill episodeNum 3,
   animeUrl ++ "-episode-" ++ episodeNum,
   animeUrl ++ "-ep-" ++ episodeNum,
   animeSlug ++ "-episode-" ++ episodeNum,
   animeSlug ++ "-ep-" ++ episodeNum,
   "episode-" ++ episodeNum ++ "-" ++ animeId,
   "ep-" ++ episodeNum ++ "-" ++ animeId]

/-- What one probe of get_episode_video accepts: a 200 response whose body
parses as a dict, has no error key, and has a truthy data value or a
stream key.  A None result, the 404 marker dict (whose .json() call
raises and is caught), an unparsable body, a non-dict body, a dict with an
error key, and a dict with neither truthy data nor stream are all skipped. -/
def usableVideoBody : ClientResult → Option Json
  | .ok (some (Json.obj fields)) =>
    let j := Json.obj fields
    if j.hasKey "error" then none
    else if (match j.lookup "data" with | some v => v.truthy | none => false) then some j
    else if j.hasKey "stream" then some j
    else none
  | _ => none

/-- Probe loop of get_episode_video: candidates in order, index i into the
probe oracle; returns the accepted metadata (or none) together with the
list of candidates actually probed, in probe order. -/
def getEpisodeVideoGo (probe : Nat → ClientResult) : Nat → List String → Option Json × List String
  | _, [] => (none, [])
  | i, c :: rest =>
    match usableVideoBody (probe i) with
    | some j => (some j, [c])
    | none =>
      let r := getEpisodeVideoGo probe (i + 1) rest
      (r.fst, c :: r.snd)

/-- get_episode_video(anime_data, episode_num): the probe oracle gives the
safe_api_request outcome of the i-th candidate probe. -/
def get_episode_video (animeData : Entry) (episodeNum : String)
    (probe : Nat → ClientResult) : Option Json × List String :=
  getEpisodeVideoGo probe 0 (possibleChapterIds animeData episodeNum)

/-- Global state shared by two threads executing load_all_anime
concurrently, with a program counter per thread.  The atomic steps follow
the source statement by statement: pc 0 reads cache_loading (line 295),
pc 1 reads cache_loaded and the cache length (line 299), pc 2 writes
cache_loading := True (line 303), pc 3 performs the whole page load and
commits it (lines 310 to 365), pc 4 is the thread done. -/
structure SysState where
  animeCache : List Entry
  cacheLoaded : Bool
  cacheLoading : Bool
  loadsStarted : Nat
  pcA : Nat
  pcB : Nat
deriving Repr

/-- One interleaving step: run one atomic statement of the selected thread
(false selects thread A, true selects thread B).  No lock is taken
anywhere, exactly as in the source. -/
def stepLoadAll (loadResult : List Entry) (s : SysState) (second : Bool) : SysState :=
  let pc := if second then s.pcB else s.pcA
  let setPc : SysState → Nat → SysState := fun s' pc' =>
    if second then { s' with pcB := pc' } else { s' with pcA := pc' }
  match pc with
  | 0 => if s.cacheLoading then setPc s 4 else setPc s 1
  | 1 => if s.cacheLoaded && decide (0 < s.animeCache.length) then setPc s 4 else setPc s 2
  | 2 => setPc { s with cacheLoading := true } 3
  | 3 => setPc { s with animeCache := dedupCatalog loadResult, cacheLoaded := true,
                        cacheLoading := false, loadsStarted := s.loadsStarted + 1 } 4
  | _ => s

/-- Run a schedule (list of thread selections) from a state. -/
def runLoadSched (loadResult : List Entry) (sched : List Bool) (s : SysState) : SysState :=
  sched.foldl (stepLoadAll loadResult) s

/-- Initial state: empty cache, nothing loaded, both threads at entry. -/
def initSys : SysState := ⟨[], false, false, 0, 0, 0⟩

/-- Two kept entries are identifier-disjoint when no identifier string of
the first is an identifier string of the second. -/
def IdentDisjoint (a b : Entry) : Prop := ∀ i ∈ identifiers a, i ∉ identifiers b

/-- Two catalog entries sharing the title t but differing in url and id. -/
def entT1 : Entry := ⟨"a", "t", "1", none, false⟩

/-- Second entry with the same title as entT1 but other url and id. -/
def entT2 : Entry := ⟨"b", "t", "2", none, false⟩

/-- Entry matched by no strategy for slug xyxy. -/
def entC2 : Entry := ⟨"aaaa", "bbbb", "7", none, false⟩

/-- Entry matching slug ab-cde only through strategy 5 (token cde in the
title xcdex). -/
def entTok : Entry := ⟨"zzzz", "xcdex", "99", none, false⟩

/-- Entry whose id is exactly the normalized slug ab-cde (strategy 6). -/
def entId : Entry := ⟨"qqqq", "ppp", "ab-cde", none, false⟩

/-- Second token-match entry for the amended-claim witness. -/
def entTok2 : Entry := ⟨"wwww", "zcdez", "55", none, false⟩

/-- Second id-match entry for the amended-claim witness. -/
def entId2 : Entry := ⟨"rrrr", "qqq", "ab-cde", none, false⟩

/-- Entry with url a-b: the exact match for slug a-b. -/
def entExact : Entry := ⟨"a-b", "", "1", none, false⟩

/-- Entry with url a-b-c: only a containment match for slug a-b. -/
def entContain : Entry := ⟨"a-b-c", "", "2", none, false⟩

/-- Upstream returning HTTP 500 on the first request, then 200. -/
def respondBadThenOk : Nat → UpResp :=
  fun k => if k = 0 then UpResp.badStatus 500 else UpResp.ok none

/-- Upstream returning HTTP 500 on every request. -/
def respondBadAlways : Nat → UpResp := fun _ => UpResp.badStatus 500

/-- Upstream returning HTTP 429 on the first five requests, then 200. -/
def respondRateLimited5 : Nat → UpResp :=
  fun j => if j < 5 then UpResp.rateLimited else UpResp.ok none

/-- A response body that is an object with a video key and nothing else. -/
def videoOnlyBody : Json := Json.obj [("video", Json.str "u")]

/-- Probe oracle answering every candidate with the video-only body. -/
def probeVideoOnly : Nat → ClientResult := fun _ => ClientResult.ok (some videoOnlyBody)

/-- Entry fed to get_episode_video in the video-field counterexample. -/
def entVideo : Entry := ⟨"anime-url", "t", "9", none, false⟩

/-- A response body that is an object with a stream key. -/
def streamBody : Json := Json.obj [("stream", Json.str "s")]

/-- Probe oracle where only the third candidate (index 2) succeeds. -/
def probeThird : Nat → ClientResult :=
  fun k => if k = 2 then ClientResult.ok (some streamBody) else ClientResult.failed

/-- Entry fed to get_episode_video in the candidate-order witness. -/
def entProbe : Entry := ⟨"u/v", "t", "5", none, false⟩

/-- Load result committed by each racing thread in the interleaving run. -/
def loadResultOne : List Entry := [⟨"a", "t", "1", some 1, false⟩]

/-- Upstream returning HTTP 404 on every request. -/
def respondNotFound : Nat → UpResp := fun _ => UpResp.notFound

/-- Per-attempt upstream oracle returning HTTP 404 on every request. -/
def respondNotFound2 : Nat → Nat → UpResp := fun _ _ => UpResp.notFound

/-! Helper lemmas about the upstream client. -/

/-- A 200 response is returned at once, whatever the remaining budget. -/
theorem okNow (respond : Nat → UpResp) (b rc : Nat) (body : Option Json)
    (h : respond rc = UpResp.ok body) :
    safeApiRequestGo respond b rc = ⟨ClientResult.ok body, 1, [], 0⟩ := by
  cases b <;> simp [safeApiRequestGo, h]

/-- A 404 response yields the empty marker at once, without retry and
without a failed-call increment, whatever the remaining budget. -/
theorem notFoundNow (respond : Nat → UpResp) (b rc : Nat)
    (h : respond rc = UpResp.notFound) :
    safeApiRequestGo respond b rc = ⟨ClientResult.emptyMarker, 1, [], 0⟩ := by
  cases b <;> simp [safeApiRequestGo, h]

/-- An upstream answering every request with the same bad status exhausts
the whole budget with flat sleeps and one failed-call increment. -/
theorem badExhaustGo (respond : Nat → UpResp) (code : Nat)
    (h : ∀ k, respond k = UpResp.badStatus code) :
    ∀ b rc : Nat, safeApiRequestGo respond b rc =
      ⟨ClientResult.failed, b + 1, List.replicate b 1, 1⟩ := by
  intro b
  induction b with
  | zero => intro rc; simp [safeApiRequestGo, h rc]
  | succ b ih =>
    intro rc
    simp [safeApiRequestGo, h rc, ih (rc + 1), List.replicate_succ]

/-- Shifting the retry counter through one recursion step of the
linear-backoff sleep list. -/
theorem rangeMapShift (n rc : Nat) :
    (List.range (n + 1)).map (fun d => rc + d + 1) =
      (rc + 1) :: (List.range n).map (fun d => rc + 1 + d + 1) := by
  rw [List.range_succ_eq_map, List.map_cons, List.map_map]
  have hf : ((fun d => rc + d + 1) ∘ Nat.succ) = (fun d : Nat => rc + 1 + d + 1) := by
    funext d
    simp [Function.comp]
    omega
  rw [hf]

/-- n rate-limited responses followed by a 200 yield success after n + 1
requests with the linear backoff sleeps rc + 1, ..., rc + n. -/
theorem rlSuccessGo (respond : Nat → UpResp) (body : Option Json) :
    ∀ n b rc : Nat, n ≤ b →
      (∀ j, rc ≤ j → j < rc + n → respond j = UpResp.rateLimited) →
      respond (rc + n) = UpResp.ok body →
      safeApiRequestGo respond b rc =
        ⟨ClientResult.ok body, n + 1, (List.range n).map (fun d => rc + d + 1), 0⟩ := by
  intro n
  induction n with
  | zero =>
    intro b rc _ _ hok
    have h0 : respond rc = UpResp.ok body := by simpa using hok
    simpa using okNow respond b rc body h0
  | succ n ih =>
    intro b rc hnb hrl hok
    obtain ⟨b', rfl⟩ : ∃ b', b = b' + 1 := ⟨b - 1, by omega⟩
    have hrc : respond rc = UpResp.rateLimited := hrl rc le_rfl (by omega)
    have hr := ih b' (rc + 1) (by omega)
      (by intro j h1 h2; exact hrl j (by omega) (by omega))
      (by rw [show rc + 1 + n = rc + (n + 1) by omega]; exact hok)
    simp only [safeApiRequestGo, hrc, hr]
    rw [rangeMapShift]

/-- Rate-limited responses throughout the budget exhaust it after b + 1
requests, with the linear backoff sleeps and one failed-call increment. -/
theorem rlExhaustGo (respond : Nat → UpResp) :
    ∀ b rc : Nat, (∀ j, rc ≤ j → j ≤ rc + b → respond j = UpResp.rateLimited) →
      safeApiRequestGo respond b rc =
        ⟨ClientResult.failed, b + 1, (List.range b).map (fun d => rc + d + 1), 1⟩ := by
  intro b
  induction b with
  | zero =>
    intro rc h
    simp [safeApiRequestGo, h rc le_rfl (by omega)]
  | succ b ih =>
    intro rc h
    have hr := ih (rc + 1) (by intro j h1 h2; exact h j (by omega) (by omega))
    simp only [safeApiRequestGo, h rc le_rfl (by omega), hr]
    rw [rangeMapShift]

/-- The starting-at-zero backoff multipliers are 1, ..., n. -/
theorem mapShiftZero (n : Nat) :
    (List.range n).map (fun d => 0 + d + 1) = (List.range n).map (fun d => d + 1) := by
  have hf : (fun d : Nat => 0 + d + 1) = (fun d : Nat => d + 1) := by
    funext d
    omega
  rw [hf]

/-- Gauss sum of the backoff multipliers 1, ..., n. -/
theorem sumRangeId (n : Nat) :
    ((List.range n).map (fun d => d + 1)).sum * 2 = n * (n + 1) := by
  induction n with
  | zero => rfl
  | succ n ih =>
    rw [List.range_succ, List.map_append, List.sum_append]
    simp only [List.map_cons, List.map_nil, List.sum_cons, List.sum_nil, Nat.add_zero]
    rw [Nat.add_mul, ih]
    ring

/-! Helper lemmas about the slug resolver. -/

/-- A strategy matching no entry finds nothing. -/
theorem find?_none_of_any_false {l : List Entry} {p : Entry → Bool}
    (h : l.any p = false) : l.find? p = none := by
  rw [List.find?_eq_none]
  intro x hx
  cases hpx : p x
  · simp
  · exfalso
    have : l.any p = true := List.any_eq_true.mpr ⟨x, hx, hpx⟩
    rw [this] at h
    cases h

/-- A strategy matching some entry finds one. -/
theorem find?_some_of_any_true {l : List Entry} {p : Entry → Bool}
    (h : l.any p = true) : ∃ a, l.find? p = some a :=
  Option.isSome_iff_exists.mp (List.find?_isSome.mpr (List.any_eq_true.mp h))

/-- When every strategy of a cascade matches no entry, the cascade returns
none. -/
theorem findByStrategies_eq_none (allAnime : List Entry) :
    ∀ ss : List (Entry → Bool), (∀ s ∈ ss, allAnime.any s = false) →
      findByStrategies allAnime ss = none := by
  intro ss
  induction ss with
  | nil => intro _; rfl
  | cons s rest ih =>
    intro h
    have hn := find?_none_of_any_false (h s (by simp))
    simp only [findByStrategies, hn]
    exact ih (fun p hp => h p (by simp [hp]))

/-! Helper lemmas about deduplication. -/

/-- Every entry kept by the deduplication loop has none of its identifiers
in the seen set the loop started from. -/
theorem mem_removeDuplicatesGo (l : List Entry) :
    ∀ (seen : List String) (x : Entry), x ∈ removeDuplicatesGo l seen →
      ∀ i ∈ identifiers x, i ∉ seen := by
  induction l with
  | nil =>
    intro seen x hx
    simp [removeDuplicatesGo] at hx
  | cons e rest ih =>
    intro seen x hx i hix hiseen
    by_cases hemp : e.emptyFlag
    · rw [removeDuplicatesGo, if_pos hemp] at hx
      exact ih seen x hx i hix hiseen
    · by_cases hany : ((identifiers e).any fun q => seen.contains q) = true
      · rw [removeDuplicatesGo, if_neg hemp, if_pos hany] at hx
        exact ih seen x hx i hix hiseen
      · rw [removeDuplicatesGo, if_neg hemp, if_neg hany] at hx
        rcases List.mem_cons.mp hx with rfl | hx
        · have hall : ∀ q ∈ identifiers x, seen.contains q = false := by
            simpa [List.any_eq_false] using hany
          have hc := hall i hix
          simp [hiseen] at hc
        · have := ih (seen ++ identifiers e) x hx i hix
          exact this (List.mem_append_left _ hiseen)

/-- Entries kept by the deduplication loop are pairwise
identifier-disjoint. -/
theorem pairwise_removeDuplicatesGo (l : List Entry) :
    ∀ seen : List String, List.Pairwise IdentDisjoint (removeDuplicatesGo l seen) := by
  induction l with
  | nil =>
    intro seen
    simp [removeDuplicatesGo]
  | cons e rest ih =>
    intro seen
    by_cases hemp : e.emptyFlag
    · rw [removeDuplicatesGo, if_pos hemp]
      exact ih seen
    · by_cases hany : ((identifiers e).any fun q => seen.contains q) = true
      · rw [removeDuplicatesGo, if_neg hemp, if_pos hany]
        exact ih seen
      · rw [removeDuplicatesGo, if_neg hemp, if_neg hany]
        refine List.Pairwise.cons ?_ (ih (seen ++ identifiers e))
        intro y hy q hqe hqy
        have := mem_removeDuplicatesGo rest (seen ++ identifiers e) y hy q hqy
        exact this (List.mem_append_right _ hqe)

/-- The deduplication loop keeps a subsequence of its input, in first-seen
order. -/
theorem sublist_removeDuplicatesGo (l : List Entry) :
    ∀ seen : List String, List.Sublist (removeDuplicatesGo l seen) l := by
  induction l with
  | nil =>
    intro seen
    simp [removeDuplicatesGo]
  | cons e rest ih =>
    intro seen
    by_cases hemp : e.emptyFlag
    · rw [removeDuplicatesGo, if_pos hemp]
      exact (ih seen).cons e
    · by_cases hany : ((identifiers e).any fun q => seen.contains q) = true
      · rw [removeDuplicatesGo, if_neg hemp, if_pos hany]
        exact (ih seen).cons e
      · rw [removeDuplicatesGo, if_neg hemp, if_neg hany]
        exact (ih (seen ++ identifiers e)).cons₂ e

/-- Stable insertion permutes to a cons. -/
theorem insertByPage_perm (e : Entry) : ∀ l : List Entry, (insertByPage e l).Perm (e :: l) := by
  intro l
  induction l with
  | nil => exact List.Perm.refl _
  | cons x xs ih =>
    by_cases h : pageKey x < pageKey e
    · rw [insertByPage, if_pos h]
      exact (ih.cons x).trans (List.Perm.swap e x xs)
    · rw [insertByPage, if_neg h]

/-- The stable sort is a permutation of its input. -/
theorem sortByPage_perm : ∀ l : List Entry, (sortByPage l).Perm l := by
  intro l
  induction l with
  | nil => exact List.Perm.refl _
  | cons e rest ih => exact (insertByPage_perm e (sortByPage rest)).trans (ih.cons e)

/-- Identifier disjointness is symmetric. -/
theorem identDisjoint_symm : Symmetric IdentDisjoint := by
  intro a b h i hib hia
  exact h i hia hib

/-! Helper lemmas about the episode video resolver. -/

/-- When no probe is usable, every candidate is probed and none is
returned. -/
theorem getEpisodeVideoGoNone (probe : Nat → ClientResult) :
    ∀ (cs : List String) (i : Nat),
      (∀ d, d < cs.length → usableVideoBody (probe (i + d)) = none) →
      getEpisodeVideoGo probe i cs = (none, cs) := by
  intro cs
  induction cs with
  | nil => intro i _; rfl
  | cons c rest ih =>
    intro i h
    have h0 : usableVideoBody (probe i) = none := by simpa using h 0 (by simp)
    have hr := ih (i + 1) (by
      intro d hd
      have hh := h (d + 1) (by simpa using Nat.succ_lt_succ hd)
      rwa [show i + (d + 1) = i + 1 + d by omega] at hh)
    simp [getEpisodeVideoGo, h0, hr]

/-- When the probe at offset k is the first usable one, exactly the first
k + 1 candidates are probed, in order, and the k-th body is returned. -/
theorem getEpisodeVideoGoFirst (probe : Nat → ClientResult) :
    ∀ (cs : List String) (k i : Nat) (j : Json), k < cs.length →
      (∀ d, d < k → usableVideoBody (probe (i + d)) = none) →
      usableVideoBody (probe (i + k)) = some j →
      getEpisodeVideoGo probe i cs = (some j, cs.take (k + 1)) := by
  intro cs
  induction cs with
  | nil =>
    intro k i j hk
    simp at hk
  | cons c rest ih =>
    intro k i j hk hnone hj
    cases k with
    | zero =>
      have h0 : usableVideoBody (probe i) = some j := by simpa using hj
      simp [getEpisodeVideoGo, h0]
    | succ k =>
      have h0 : usableVideoBody (probe i) = none := by simpa using hnone 0 (by omega)
      have hklt : k < rest.length := by simp at hk; omega
      have hr := ih k (i + 1) j hklt
        (by
          intro d hd
          have hh := hnone (d + 1) (by omega)
          rwa [show i + (d + 1) = i + 1 + d by omega] at hh)
        (by rwa [show i + (k + 1) = i + 1 + k by omega] at hj)
      simp [getEpisodeVideoGo, h0, hr]

/-! Claim theorems. -/

/-- C1 counterexample: entT1 and entT2 differ in their normalized (url, id)
composite (different url, different id) yet share the title t.  Fed to
load_all_anime on a fresh cache, only entT1 survives deduplication: the
claim says that two entries differing in the (url, id) composite are both
kept, but the code also deduplicates on the title alone and drops entT2. -/
theorem claim_C1_counterexample :
    normUrl entT1 ≠ normUrl entT2 ∧ entT1.id ≠ entT2.id ∧
    (load_all_anime (some ⟨[entT1, entT2], 100⟩) none ⟨[], false, false⟩).fst
      = some [entT1] :=
  ⟨by decide, by decide, rfl⟩

/-- C1 (amended): the deduplicated catalog is a subsequence of the input in
first-seen order (before the final stable by-page sort), and its entries
are pairwise disjoint in all five identifier strings (url, title, id,
url-id composite, title-id composite); in particular each normalized
(url, id) composite occurs at most once.  Entries are dropped whenever any
one of the five identifiers has been seen, not only the composite. -/
theorem claim_C1_amended (l : List Entry) :
    List.Sublist (removeDuplicates l) l ∧
    List.Pairwise IdentDisjoint (dedupCatalog l) ∧
    List.Pairwise (fun a b => ¬(normUrl a = normUrl b ∧ a.id = b.id)) (dedupCatalog l) := by
  have hpair : List.Pairwise IdentDisjoint (dedupCatalog l) :=
    (List.Perm.pairwise_iff (fun hab => identDisjoint_symm hab)
      (sortByPage_perm (removeDuplicates l))).mpr (pairwise_removeDuplicatesGo l [])
  refine ⟨sublist_removeDuplicatesGo l [], hpair, ?_⟩
  refine hpair.imp ?_
  intro a b hab hcomp
  obtain ⟨hu, hid⟩ := hcomp
  have h1 : ("url_id:" ++ normUrl a ++ "|" ++ a.id) ∈ identifiers a := by
    simp [identifiers]
  have h2 : ("url_id:" ++ normUrl a ++ "|" ++ a.id) ∈ identifiers b := by
    rw [hu, hid]
    simp [identifiers]
  exact hab _ h1 h2

/-- C2 counterexample: with an empty cache and the slug x, the claim
requires the resolver to fall back to the upstream search endpoint and
return the searched entry with url x; find_anime_by_slug in the source has
no such fallback and returns None, returning no entry at all. -/
theorem claim_C2_counterexample :
    find_anime_by_slug [] "x" = none ∧ ∀ e : Entry, find_anime_by_slug [] "x" ≠ some e :=
  ⟨rfl, fun _ h => Option.noConfusion h⟩

/-- C2 (amended): find_anime_by_slug never consults the upstream search
endpoint; whenever no strategy of the cascade matches any cached entry it
returns None. -/
theorem claim_C2_amended (allAnime : List Entry) (slug : String)
    (h : anyStrategyMatches allAnime (lowerStr (pyStrip slug)) = false) :
    find_anime_by_slug allAnime slug = none := by
  have hall : ∀ s ∈ matching_strategies (lowerStr (pyStrip slug)), allAnime.any s = false := by
    intro s hs
    cases hq : allAnime.any s
    · rfl
    · exfalso
      have hsome : anyStrategyMatches allAnime (lowerStr (pyStrip slug)) = true :=
        List.any_eq_true.mpr ⟨s, hs, hq⟩
      rw [hsome] at h
      cases h
  exact findByStrategies_eq_none allAnime _ hall

/-- C2 witness: a one-entry cache matched by no strategy for slug xyxy
resolves to None. -/
theorem claim_C2_witness :
    anyStrategyMatches [entC2] (lowerStr (pyStrip "xyxy")) = false ∧
    find_anime_by_slug [entC2] "xyxy" = none :=
  ⟨rfl, claim_C2_amended [entC2] "xyxy" rfl⟩

/-- C3 counterexample: in the cache entTok, entId for slug ab-cde, entId
has id equal to the normalized slug and no exact-URL or containment
strategy matches any entry, while entTok matches only by a slug token in
its title; the claim requires entId, but find_anime_by_slug returns
entTok, because the partial-title strategy 5 runs before the id strategy 6. -/
theorem claim_C3_counterexample :
    entId.id = lowerStr (pyStrip "ab-cde") ∧
    find_anime_by_slug [entTok, entId] "ab-cde" = some entTok ∧ entTok ≠ entId :=
  ⟨rfl, rfl, by decide⟩

/-- C3 (amended): the identifier strategy is number 6 of the cascade and is
only consulted after the title strategies 4 and 5: when strategies 1 to 4
match no entry and strategy 5 (a slug token of length above 2 occurring in
the title) matches some entry, the resolver returns the first strategy-5
match, even when another entry has id equal to the normalized slug. -/
theorem claim_C3_amended (allAnime : List Entry) (slug : String)
    (h1 : allAnime.any (strat1 (lowerStr (pyStrip slug))) = false)
    (h2 : allAnime.any (strat2 (lowerStr (pyStrip slug))) = false)
    (h3 : allAnime.any (strat3 (lowerStr (pyStrip slug))) = false)
    (h4 : allAnime.any (strat4 (lowerStr (pyStrip slug))) = false)
    (h5 : allAnime.any (strat5 (lowerStr (pyStrip slug))) = true) :
    find_anime_by_slug allAnime slug = allAnime.find? (strat5 (lowerStr (pyStrip slug))) := by
  have n1 := find?_none_of_any_false h1
  have n2 := find?_none_of_any_false h2
  have n3 := find?_none_of_any_false h3
  have n4 := find?_none_of_any_false h4
  obtain ⟨a, ha⟩ := find?_some_of_any_true h5
  simp only [find_anime_by_slug, matching_strategies, findByStrategies, n1, n2, n3, n4, ha]

/-- C3 witness: the amended priority at a concrete cache in which entTok2
matches only by title token and entId2 by id. -/
theorem claim_C3_witness :
    find_anime_by_slug [entTok2, entId2] "ab-cde" = some entTok2 :=
  (claim_C3_amended [entTok2, entId2] "ab-cde" rfl rfl rfl rfl rfl).trans rfl

/-- C4: whenever some cached entry matches strategy 1 (normalized url equal
to normalized slug), find_anime_by_slug returns the first such exact match:
strategy 1 is evaluated against the whole cache before any later strategy
is consulted, so a containment match can never win over an exact match. -/
theorem claim_C4 (allAnime : List Entry) (slug : String)
    (h : allAnime.any (strat1 (lowerStr (pyStrip slug))) = true) :
    find_anime_by_slug allAnime slug = allAnime.find? (strat1 (lowerStr (pyStrip slug))) := by
  obtain ⟨a, ha⟩ := find?_some_of_any_true h
  simp only [find_anime_by_slug, matching_strategies, findByStrategies, ha]

/-- C4 witness: with entries of url a-b and a-b-c in either order, slug a-b
resolves to the exact match, never the containment match. -/
theorem claim_C4_witness :
    find_anime_by_slug [entExact, entContain] "a-b" = some entExact ∧
    find_anime_by_slug [entContain, entExact] "a-b" = some entExact :=
  ⟨(claim_C4 [entExact, entContain] "a-b" rfl).trans rfl,
   (claim_C4 [entContain, entExact] "a-b" rfl).trans rfl⟩

/-- C5 counterexample: an upstream answering the first request with HTTP
500 and the second with HTTP 200.  The claim requires a BadStatus failure
without any retry (one request); safe_api_request instead slept a flat
RETRY_DELAY, retried, issued a second request and succeeded. -/
theorem claim_C5_counterexample :
    safe_api_request respondBadThenOk 5 0 = ⟨ClientResult.ok none, 2, [1], 0⟩ := rfl

/-- C5 (amended): a non-200 status other than 429 and 404 is retried up to
MAX_RETRIES with a flat RETRY_DELAY sleep each time: an upstream answering
every request with such a status fails (returns None and counts one failed
call) only after MAX_RETRIES + 1 requests, and a bad status followed by a
200 succeeds after two requests and one flat sleep. -/
theorem claim_C5_amended (maxRetries code : Nat) (respond : Nat → UpResp) (body : Option Json) :
    ((∀ k, respond k = UpResp.badStatus code) →
      safe_api_request respond maxRetries 0 =
        ⟨ClientResult.failed, maxRetries + 1, List.replicate maxRetries 1, 1⟩) ∧
    (0 < maxRetries → respond 0 = UpResp.badStatus code → respond 1 = UpResp.ok body →
      safe_api_request respond maxRetries 0 = ⟨ClientResult.ok body, 2, [1], 0⟩) := by
  constructor
  · intro h
    simpa [safe_api_request] using badExhaustGo respond code h maxRetries 0
  · intro hpos h0 h1
    obtain ⟨m, rfl⟩ : ∃ m, maxRetries = m + 1 := ⟨maxRetries - 1, by omega⟩
    have hok := okNow respond m 1 body h1
    simp [safe_api_request, safeApiRequestGo, h0, hok]

/-- C5 witness: both parts of the amended claim at concrete upstreams
(always-500 with MAX_RETRIES 2; 500-then-200 with MAX_RETRIES 3). -/
theorem claim_C5_witness :
    safe_api_request respondBadAlways 2 0 = ⟨ClientResult.failed, 3, [1, 1], 1⟩ ∧
    safe_api_request respondBadThenOk 3 0 = ⟨ClientResult.ok none, 2, [1], 0⟩ :=
  ⟨(claim_C5_amended 2 500 respondBadAlways none).1 (fun _ => rfl),
   (claim_C5_amended 3 500 respondBadThenOk none).2 (by decide) rfl rfl⟩

/-- C6: an upstream answering the first MAX_RETRIES requests with HTTP 429
and the next with HTTP 200 makes safe_api_request succeed after exactly
MAX_RETRIES + 1 requests, sleeping RETRY_DELAY * (k + 1) before retry k
(the multiplier list is 1, ..., MAX_RETRIES, whose sum is the linear
backoff total MAX_RETRIES * (MAX_RETRIES + 1) / 2); an upstream answering
429 beyond MAX_RETRIES instead exhausts the budget and returns the
rate-limited failure (None, one failed call) after MAX_RETRIES + 1
requests. -/
theorem claim_C6 (maxRetries : Nat) (respond : Nat → UpResp) (body : Option Json)
    (h : ∀ j, j < maxRetries → respond j = UpResp.rateLimited) :
    (respond maxRetries = UpResp.ok body →
      safe_api_request respond maxRetries 0 =
        ⟨ClientResult.ok body, maxRetries + 1, (List.range maxRetries).map (fun d => d + 1), 0⟩) ∧
    (respond maxRetries = UpResp.rateLimited →
      safe_api_request respond maxRetries 0 =
        ⟨ClientResult.failed, maxRetries + 1, (List.range maxRetries).map (fun d => d + 1), 1⟩) ∧
    ((List.range maxRetries).map (fun d => d + 1)).sum * 2 = maxRetries * (maxRetries + 1) := by
  refine ⟨?_, ?_, sumRangeId maxRetries⟩
  · intro hok
    have hgo := rlSuccessGo respond body maxRetries maxRetries 0 le_rfl
      (by intro j h1 h2; exact h j (by omega)) (by simpa using hok)
    simpa [safe_api_request, mapShiftZero] using hgo
  · intro hrlm
    have hgo := rlExhaustGo respond maxRetries 0 (by
      intro j h1 h2
      rcases Nat.lt_or_ge j maxRetries with hlt | hge
      · exact h j hlt
      · have hj : j = maxRetries := by omega
        rw [hj]
        exact hrlm)
    simpa [safe_api_request, mapShiftZero] using hgo

/-- C6 witness: five 429 responses then a 200, with MAX_RETRIES 5: six
requests, sleep multipliers 1 to 5. -/
theorem claim_C6_witness :
    safe_api_request respondRateLimited5 5 0 = ⟨ClientResult.ok none, 6, [1, 2, 3, 4, 5], 0⟩ :=
  (claim_C6 5 respondRateLimited5 none
      (by intro j hj; simp [respondRateLimited5, hj])).1 rfl

/-- C7 counterexample: every probe answers with an object carrying a video
field, no error field, no data field and no stream field.  The claim says
the first such response is returned as usable; get_episode_video never
checks a video field and exhausts all candidates, returning None. -/
theorem claim_C7_counterexample :
    videoOnlyBody.hasKey "video" = true ∧ videoOnlyBody.hasKey "error" = false ∧
    (get_episode_video entVideo "1" probeVideoOnly).fst = none :=
  ⟨rfl, rfl, rfl⟩

/-- C7 (amended): get_episode_video probes its nine candidate identifiers
strictly in generated order, each exactly once: when the probe at position
k is the first that yields an object with no error field and either a
truthy data field or a stream field (a video field is not checked), the
first k + 1 candidates and no others are probed and the k-th body is
returned; when no probe is usable, every candidate is probed and None is
returned. -/
theorem claim_C7_amended (animeData : Entry) (episodeNum : String)
    (probe : Nat → ClientResult) :
    (∀ (k : Nat) (j : Json), k < (possibleChapterIds animeData episodeNum).length →
      (∀ d, d < k → usableVideoBody (probe d) = none) →
      usableVideoBody (probe k) = some j →
      get_episode_video animeData episodeNum probe =
        (some j, (possibleChapterIds animeData episodeNum).take (k + 1))) ∧
    ((∀ d, d < (possibleChapterIds animeData episodeNum).length →
        usableVideoBody (probe d) = none) →
      get_episode_video animeData episodeNum probe =
        (none, possibleChapterIds animeData episodeNum)) := by
  constructor
  · intro k j hk hnone hj
    exact getEpisodeVideoGoFirst probe (possibleChapterIds animeData episodeNum) k 0 j hk
      (by intro d hd; simpa using hnone d hd) (by simpa using hj)
  · intro hall
    exact getEpisodeVideoGoNone probe (possibleChapterIds animeData episodeNum) 0
      (by intro d hd; simpa using hall d hd)

/-- C7 witness: only the third candidate (index 2) succeeds, so candidates
1 and 2 are probed first and the third body is returned. -/
theorem claim_C7_witness :
    get_episode_video entProbe "7" probeThird =
      (some streamBody, (possibleChapterIds entProbe "7").take 3) :=
  (claim_C7_amended entProbe "7" probeThird).1 2 streamBody (by decide)
    (by
      intro d hd
      have hd2 : d = 0 ∨ d = 1 := by omega
      rcases hd2 with rfl | rfl <;> rfl)
    rfl

/-- C8 (code bug): the failing execution in which the parallel loader
raises and the sequential fallback raises as well (both oracles none).
load_all_anime sets cache_loading to True, and there is no finally
clause, so the exception propagates with cache_loading left True: the
cache is stuck in the Loading state forever, contradicting the claim that
every failing execution returns the flag to Empty. -/
theorem claim_C8_bug :
    load_all_anime none none ⟨[], false, false⟩ = (none, ⟨[], false, true⟩) := rfl

/-- C9 (code bug): two threads run load_all_anime on an empty cache.  Under
the sequential schedule the flag works: one load is started.  Under the
interleaved schedule both threads pass the cache_loading check of line 295
before either reaches the assignment of line 303, and both perform the
full upstream load: the check and the set are not atomic (no lock exists
in the source), contradicting the claim that at most one caller performs
the load. -/
theorem claim_C9_bug :
    (runLoadSched loadResultOne [false, false, false, false, true, true] initSys).loadsStarted
        = 1 ∧
    (runLoadSched loadResultOne [false, true, false, true, false, true, false, true]
        initSys).loadsStarted = 2 :=
  ⟨rfl, rfl⟩

/-- C10: a 404 response makes safe_api_request return the empty-page marker
at once: one request, no sleep, no failed-call increment, whatever the
retry budget; load_single_page then reports the page as an empty page with
no data.  By contrast, any other non-200 status (modelled by the badStatus
constructor) is retried and, once the budget is exhausted, counted as a
failed call. -/
theorem claim_C10 (maxRetries retryCount pageNum code : Nat) (respond : Nat → UpResp)
    (respond2 : Nat → Nat → UpResp) :
    (respond retryCount = UpResp.notFound →
      safe_api_request respond maxRetries retryCount =
        ⟨ClientResult.emptyMarker, 1, [], 0⟩) ∧
    (respond2 0 0 = UpResp.notFound →
      load_single_page pageNum respond2 maxRetries = ⟨pageNum, [], PageStatus.empty⟩) ∧
    ((∀ k, respond k = UpResp.badStatus code) →
      safe_api_request respond maxRetries 0 =
        ⟨ClientResult.failed, maxRetries + 1, List.replicate maxRetries 1, 1⟩) := by
  refine ⟨?_, ?_, ?_⟩
  · intro h
    exact notFoundNow respond (maxRetries - retryCount) retryCount h
  · intro h
    have hm := notFoundNow (respond2 0) maxRetries 0 h
    simp [load_single_page, loadSinglePageGo, safe_api_request, hm]
  · intro h
    simpa [safe_api_request] using badExhaustGo respond code h maxRetries 0

/-- C10 witness: the 404 branch and the contrasting bad-status branch at
concrete upstream oracles. -/
theorem claim_C10_witness :
    safe_api_request respondNotFound 5 0 = ⟨ClientResult.emptyMarker, 1, [], 0⟩ ∧
    load_single_page 3 respondNotFound2 5 = ⟨3, [], PageStatus.empty⟩ ∧
    safe_api_request respondBadAlways 4 0 = ⟨ClientResult.failed, 5, [1, 1, 1, 1], 1⟩ :=
  ⟨(claim_C10 5 0 3 500 respondNotFound respondNotFound2).1 rfl,
   (claim_C10 5 0 3 500 respondNotFound respondNotFound2).2.1 rfl,
   (claim_C10 4 0 3 500 respondBadAlways respondNotFound2).2.2 (fun _ => rfl)⟩
